import Mathlib

/-!
Verification of the price-derivation pipeline of a commodity-tracker
dashboard (src/app.py).  The pipeline is shallowly embedded: pandas
Series become `List (Option ℚ)` (a `none` cell models a NaN), prices are
exact rationals, and the provider call becomes an `Except`-valued input
(an `Except.error` models the provider raising an exception).
-/

/- ---------------------------------------------------------------
   Constants (src/app.py:69 and src/app.py:99)
   --------------------------------------------------------------- -/

/-- Embeds the literal `31.1035` (grams per troy ounce) at src/app.py:99. -/
def troy_ounce_grams : ℚ := 31.1035

/-- Embeds `TAX_FACTOR = 1.12` at src/app.py:69. -/
def TAX_FACTOR : ℚ := 1.12

/- ---------------------------------------------------------------
   Data model of the fetch step (src/app.py:74-105)
   --------------------------------------------------------------- -/

/-- Close-price columns of the joint download `yf.download(f"{ticker} INR=X")`
(src/app.py:77): one shared timestamp index, per-row optional values for the
asset and for the USDINR rate (a `none` models a NaN hole where one
instrument did not trade on that timestamp). -/
structure RawClose where
  asset : List (Option ℚ)
  inr : List (Option ℚ)
deriving DecidableEq, Repr

/-- One row of the frame built at src/app.py:93-101: columns
`Global_Price`, `USDINR`, `Close`. -/
structure Row where
  global_price : Option ℚ
  usdinr : Option ℚ
  close : Option ℚ
deriving DecidableEq, Repr

/-- Embeds the derived-price arithmetic at src/app.py:99-101:
`conv_factor = (df['USDINR'] / 31.1035) * multiplier * TAX_FACTOR` and
`df['Close'] = df['Global_Price'] * conv_factor`; a NaN in either input
propagates to the product. -/
def closeCell (multiplier : ℚ) (a r : Option ℚ) : Option ℚ :=
  match a, r with
  | some av, some rv => some (av * (rv / troy_ounce_grams * multiplier * TAX_FACTOR))
  | _, _ => none

/-- Builds the pre-fill frame of src/app.py:93-101 from the downloaded
columns. -/
def mkRows (multiplier : ℚ) (data : RawClose) : List Row :=
  (data.asset.zip data.inr).map (fun pr =>
    { global_price := pr.1, usdinr := pr.2, close := closeCell multiplier pr.1 pr.2 })

/-- Forward-fill of a single cell: a present value stays, a missing one
takes the carried last-known value. -/
def fcell (carry : Option ℚ) (x : Option ℚ) : Option ℚ :=
  match x with
  | some v => some v
  | none => carry

/-- Embeds `df.ffill()` at src/app.py:104: per-column forward fill, carrying
the last known value of each of the three columns. -/
def ffillGo (g u c : Option ℚ) : List Row → List Row
  | [] => []
  | r :: rs =>
    let g2 := fcell g r.global_price
    let u2 := fcell u r.usdinr
    let c2 := fcell c r.close
    { global_price := g2, usdinr := u2, close := c2 } :: ffillGo g2 u2 c2 rs

/-- Embeds `.dropna()` at src/app.py:104: keep only fully-populated rows. -/
def dropna (rows : List Row) : List Row :=
  rows.filter (fun r => r.global_price.isSome && r.usdinr.isSome && r.close.isSome)

/-- Embeds `fetch_data` (src/app.py:74-105).  The download argument models
the provider call: `Except.error e` is the provider raising exception `e`.
`fetch_data` contains no try/except, so an exception propagates unchanged
to the caller; on success the frame is built, forward-filled and stripped
of incomplete rows exactly as `df.ffill().dropna()` does. -/
def fetch_data (multiplier : ℚ) (download : Except String RawClose) :
    Except String (List Row) :=
  match download with
  | Except.error e => Except.error e
  | Except.ok data => Except.ok (dropna (ffillGo none none none (mkRows multiplier data)))

/- ---------------------------------------------------------------
   Module-level try/except (src/app.py:184-280)
   --------------------------------------------------------------- -/

/-- Outcome of one render cycle: either the page is shown from a data
frame, or `st.error` displays a message. -/
inductive RenderOutcome
  | page (df : List Row)
  | errorShown (msg : String)
deriving DecidableEq, Repr

/-- Embeds the module-level `try: ... except Exception as e: st.error(f"Error: {e}")`
at src/app.py:184-280: the whole pipeline (fetch, indicators, `df.iloc[-1]`,
`df.iloc[-2]`, rendering) runs inside the try; any exception — including one
propagated out of `fetch_data` and the IndexError raised by `iloc` on a
frame with fewer than two rows — is caught and displayed. -/
def app_main (multiplier : ℚ) (download : Except String RawClose) : RenderOutcome :=
  match fetch_data multiplier download with
  | Except.error e => RenderOutcome.errorShown ("Error: " ++ e)
  | Except.ok df =>
    if df.length < 2 then RenderOutcome.errorShown ("Error: index out of range")
    else RenderOutcome.page df

/- ---------------------------------------------------------------
   Indicator columns of add_technicals (src/app.py:107-131)

   `add_technicals` assigns one new pandas column per line; each column
   is embedded as a function from the (fully populated, per the dropna
   in fetch_data) close-price list and a row index to the cell value,
   `none` modelling a NaN cell.
   --------------------------------------------------------------- -/

/-- Trailing window of a pandas `rolling(w)` at row `i`: the `w` values at
indices `i+1-w .. i`, available only once `i+1 ≥ w` and `i` is in range
(min_periods defaults to the window size). -/
def rollWindow (w : ℕ) (xs : List ℚ) (i : ℕ) : Option (List ℚ) :=
  if w ≤ i + 1 ∧ i < xs.length then some ((xs.take (i + 1)).drop (i + 1 - w)) else none

/-- Embeds `.rolling(w).mean()` at row `i`. -/
def rollMean (w : ℕ) (xs : List ℚ) (i : ℕ) : Option ℚ :=
  (rollWindow w xs i).map (fun win => win.sum / (w : ℚ))

/-- Embeds `delta.where(delta > 0, 0)` where `delta = price.diff()`
(src/app.py:111-112).  At index 0 the diff is NaN and `where` replaces it
(NaN > 0 is false) by 0, exactly as pandas does. -/
def gains (p : List ℚ) : List ℚ :=
  (List.range p.length).map (fun i =>
    if i = 0 then 0 else
      (if p.getD i 0 - p.getD (i - 1) 0 > 0 then p.getD i 0 - p.getD (i - 1) 0 else 0))

/-- Embeds `-delta.where(delta < 0, 0)` (src/app.py:113); the NaN diff at
index 0 again becomes 0. -/
def losses (p : List ℚ) : List ℚ :=
  (List.range p.length).map (fun i =>
    if i = 0 then 0 else
      (-(if p.getD i 0 - p.getD (i - 1) 0 < 0 then p.getD i 0 - p.getD (i - 1) 0 else 0)))

/-- Embeds `rs = gain/loss; RSI = 100 - 100/(1+rs)` (src/app.py:114-115)
under IEEE float semantics: with a zero loss-mean, a positive gain-mean
gives `rs = +inf` hence RSI = 100, while `0/0` gives NaN hence an
undefined cell. -/
def rsiCell (g l : ℚ) : Option ℚ :=
  if l = 0 then (if g = 0 then none else some 100)
  else some (100 - 100 / (1 + g / l))

/-- Embeds the `RSI` column (src/app.py:111-115): 14-period simple rolling
means of the clamped gains and losses, combined by `rsiCell`. -/
def rsiCol (p : List ℚ) (i : ℕ) : Option ℚ :=
  match rollMean 14 (gains p) i, rollMean 14 (losses p) i with
  | some g, some l => rsiCell g l
  | _, _ => none

/-- Embeds `price.ewm(span=s).mean()` (src/app.py:118-119) with pandas
defaults (adjust=True, min_periods=0): the weighted average of the first
`i+1` prices with weights `(1-a)^j`, `a = 2/(s+1)` — defined at every
in-range row, with no warm-up period. -/
def ewmMean (span : ℚ) (p : List ℚ) (i : ℕ) : Option ℚ :=
  if i < p.length then
    some ((((List.range (i + 1)).map
              (fun j => (1 - 2 / (span + 1)) ^ j * p.getD (i - j) 0)).sum) /
          (((List.range (i + 1)).map (fun j => (1 - 2 / (span + 1)) ^ j)).sum))
  else none

/-- Embeds `df['EMA_20'] = price.ewm(span=20).mean()` (src/app.py:118). -/
def ema20Col (p : List ℚ) (i : ℕ) : Option ℚ :=
  ewmMean 20 p i

/-- Embeds `df['EMA_50'] = price.ewm(span=50).mean()` (src/app.py:119). -/
def ema50Col (p : List ℚ) (i : ℕ) : Option ℚ :=
  ewmMean 50 p i

/-- Embeds `df['SMA_20'] = price.rolling(20).mean()` (src/app.py:122). -/
def sma20Col (p : List ℚ) (i : ℕ) : Option ℚ :=
  rollMean 20 p i

/-- Squared value of the `Std` column: pandas `rolling(20).std()`
(src/app.py:123) uses the default ddof=1, i.e. the SAMPLE variance of the
trailing 20-window — sum of squared deviations divided by 19, not 20. -/
def var20Col (p : List ℚ) (i : ℕ) : Option ℚ :=
  (rollWindow 20 p i).map (fun win =>
    (win.map (fun x => (x - win.sum / 20) ^ 2)).sum / 19)

/-- Embeds `df['Std'] = price.rolling(20).std()` (src/app.py:123): the
square root of the ddof=1 rolling variance. -/
noncomputable def stdCol (p : List ℚ) (i : ℕ) : Option ℝ :=
  (var20Col p i).map (fun q => Real.sqrt (q : ℝ))

/-- Embeds `df['Upper'] = df['SMA_20'] + (df['Std']*2)` (src/app.py:124). -/
noncomputable def upperCol (p : List ℚ) (i : ℕ) : Option ℝ :=
  match sma20Col p i, stdCol p i with
  | some m, some s => some ((m : ℝ) + s * 2)
  | _, _ => none

/-- Embeds `df['Lower'] = df['SMA_20'] - (df['Std']*2)` (src/app.py:125). -/
noncomputable def lowerCol (p : List ℚ) (i : ℕ) : Option ℝ :=
  match sma20Col p i, stdCol p i with
  | some m, some s => some ((m : ℝ) - s * 2)
  | _, _ => none

/-- Running maximum of a non-empty prefix, accumulator form. -/
def runMaxGo (acc : ℚ) : List ℚ → ℚ
  | [] => acc
  | y :: ys => runMaxGo (max acc y) ys

/-- Maximum of a list, `none` on the empty list. -/
def runMax : List ℚ → Option ℚ
  | [] => none
  | x :: xs => some (runMaxGo x xs)

/-- Embeds `df['Peak'] = price.cummax()` (src/app.py:128): the maximum of
the prices up to and including row `i`. -/
def peakCol (p : List ℚ) (i : ℕ) : Option ℚ :=
  runMax (p.take (i + 1))

/-- Embeds `df['Drawdown_Pct'] = ((price - df['Peak']) / df['Peak']) * 100`
(src/app.py:129). -/
def drawdownCol (p : List ℚ) (i : ℕ) : Option ℚ :=
  match p[i]?, peakCol p i with
  | some x, some pk => some ((x - pk) / pk * 100)
  | _, _ => none

/- ---------------------------------------------------------------
   Margin calculator (src/app.py:26-55 and 136-174)
   --------------------------------------------------------------- -/

/-- Tests whether `pat` occurs at the head of `s`. -/
def subAt : List Char → List Char → Bool
  | [], _ => true
  | _ :: _, [] => false
  | a :: ps, b :: ss => a == b && subAt ps ss

/-- Tests whether `pat` occurs anywhere in `s`. -/
def hasSub (pat : List Char) : List Char → Bool
  | [] => pat.isEmpty
  | b :: ss => subAt pat (b :: ss) || hasSub pat ss

/-- Embeds the Python substring test `pat in s`. -/
def strContains (s pat : String) : Bool :=
  hasSub pat.toList s.toList

/-- One entry of the `CONTRACTS` table (src/app.py:26-55). -/
structure Contract where
  ticker : String
  unit_mult : ℚ
  display_unit : String
  lot_qty : ℚ
  margin_pct : ℚ
  type : String
deriving DecidableEq, Repr

/-- Embeds the `display_unit_qty` if-chain at src/app.py:147-151: default 1,
then the four substring tests on the contract's display-unit label. -/
def display_unit_qty (config : Contract) : ℚ :=
  if strContains config.display_unit ("10 Grams") then 10
  else if strContains config.display_unit ("8 Grams") then 8
  else if strContains config.display_unit ("1 Gram") then 1
  else if strContains config.display_unit ("1 Kg") then 1000
  else 1

/-- Embeds `calculate_zerodha_margin` (src/app.py:136-174), with the global
`config` passed explicitly: GOLD contracts divide the lot quantity by the
display-unit quantity, all others use the lot quantity directly; the result
is the pair (total_contract_value, margin_req). -/
def calculate_zerodha_margin (config : Contract) (price_per_unit : ℚ) : ℚ × ℚ :=
  let units_in_lot : ℚ :=
    if config.type = "GOLD" then config.lot_qty / display_unit_qty config
    else config.lot_qty
  let total_contract_value := price_per_unit * units_in_lot
  (total_contract_value, total_contract_value * config.margin_pct)

/-- Embeds the `"GOLDTEN (Standard)"` entry of `CONTRACTS`
(src/app.py:27-30). -/
def GOLDTEN : Contract :=
  { ticker := "GC=F", unit_mult := 10, display_unit := "10 Grams",
    lot_qty := 1000, margin_pct := 0.11, type := "GOLD" }

/- ---------------------------------------------------------------
   Signal classifier (spec section 4.4; absent from src/app.py)
   --------------------------------------------------------------- -/

/-- Verdicts of the signal classifier (spec section 3, "Signal"). -/
inductive Verdict
  | STRONG_BUY
  | BUY_ON_DIPS
  | WAIT_AND_WATCH
  | SELL_OR_AVOID
  | INSUFFICIENT_DATA
deriving DecidableEq, Repr

/-- Latest indicator row as consumed by the classifier: price, optional RSI
and lower band, and the MACD pair. -/
structure LatestRow where
  close : ℚ
  rsi : Option ℚ
  lower : Option ℚ
  macd : ℚ
  macd_signal : ℚ
deriving DecidableEq, Repr

/-- Classifier output: a verdict and its supporting reasons. -/
structure Signal where
  verdict : Verdict
  reasons : List String
deriving DecidableEq, Repr

/-- Modelled from the spec: the SignalClassifier of section 4.4 is absent
from src/app.py (only other corpus variants contain it), so it is modelled
faithfully from the spec's rules: undefined RSI returns INSUFFICIENT_DATA
immediately with reason "insufficient history"; otherwise RSI below 30
scores +2 ("oversold") / above 70 scores -2 ("overbought"), a price below
a defined lower band scores +3 ("price below lower band"), MACD above its
signal scores +1 else -1, and the total maps to the verdict thresholds
3 / 1 / -2. -/
def classify (row : LatestRow) : Signal :=
  match row.rsi with
  | none => { verdict := Verdict.INSUFFICIENT_DATA, reasons := ["insufficient history"] }
  | some r =>
    let s1 : Int := if r < 30 then 2 else if 70 < r then -2 else 0
    let r1 : List String :=
      if r < 30 then ["oversold"] else if 70 < r then ["overbought"] else []
    let bandHit : Bool :=
      match row.lower with
      | some lb => decide (row.close < lb)
      | none => false
    let s2 : Int := if bandHit then 3 else 0
    let r2 : List String := if bandHit then ["price below lower band"] else []
    let s3 : Int := if row.macd_signal < row.macd then 1 else -1
    let score := s1 + s2 + s3
    let v :=
      if 3 ≤ score then Verdict.STRONG_BUY
      else if 1 ≤ score then Verdict.BUY_ON_DIPS
      else if score ≤ -2 then Verdict.SELL_OR_AVOID
      else Verdict.WAIT_AND_WATCH
    { verdict := v, reasons := r1 ++ r2 }

/- ---------------------------------------------------------------
   Theorems
   --------------------------------------------------------------- -/

/-- C2, counterexample: with the provider raising exception "boom", the
claim that `fetch_data` returns an explicit empty result and never lets an
exception propagate to its caller is false at this concrete input — the
result of `fetch_data` is the propagated exception itself, not an empty
(or any other) data frame. -/
theorem fetch_data_exception_cex :
    fetch_data 1 (Except.error "boom") = Except.error "boom" ∧
    fetch_data 1 (Except.error "boom") ≠ Except.ok [] :=
  ⟨rfl, by simp [fetch_data]⟩

/-- C2, amended: a provider exception propagates unchanged out of
`fetch_data` (which contains no handler and returns no explicit empty
result), and the module-level try/except around the whole pipeline catches
it and reports it as a displayed error message. -/
theorem fetch_data_exception_amended (multiplier : ℚ) (e : String) :
    fetch_data multiplier (Except.error e) = Except.error e ∧
    app_main multiplier (Except.error e) = RenderOutcome.errorShown ("Error: " ++ e) :=
  ⟨rfl, rfl⟩

/-- C3: whenever the RSI field of the latest indicator row is undefined,
`classify` returns the INSUFFICIENT_DATA verdict with exactly the reason
"insufficient history", regardless of every other field, skipping all the
scoring rules. -/
theorem classify_insufficient_data (row : LatestRow) (h : row.rsi = none) :
    classify row =
      { verdict := Verdict.INSUFFICIENT_DATA, reasons := ["insufficient history"] } := by
  cases row with
  | mk c r lb m ms =>
    simp only at h
    subst h
    rfl

/-- Witness for C3 at a concrete row with undefined RSI and arbitrary other
fields. -/
theorem classify_insufficient_data_witness :
    classify { close := 5, rsi := none, lower := some 99, macd := 3, macd_signal := 1 } =
      { verdict := Verdict.INSUFFICIENT_DATA, reasons := ["insufficient history"] } :=
  classify_insufficient_data
    { close := 5, rsi := none, lower := some 99, macd := 3, macd_signal := 1 } rfl

/-- C5: for every contract and positive latest price, the margin estimator
computes units_in_lot as lot_qty / display_unit_qty for GOLD contracts and
lot_qty otherwise, the total contract value as price times units_in_lot and
the margin as that value times margin_pct; in particular the GOLDTEN
scenario (display unit 10 grams, lot 1000, margin 0.11, price 71000) yields
a total value of 7100000 and a margin of 781000. -/
theorem margin_formula_and_scenario :
    (∀ (c : Contract) (price : ℚ), 0 < price →
      calculate_zerodha_margin c price =
        (price * (if c.type = "GOLD" then c.lot_qty / display_unit_qty c else c.lot_qty),
         price * (if c.type = "GOLD" then c.lot_qty / display_unit_qty c else c.lot_qty) *
           c.margin_pct)) ∧
    calculate_zerodha_margin GOLDTEN 71000 = (7100000, 781000) := by
  constructor
  · intro c price _
    simp [calculate_zerodha_margin]
  · norm_num [calculate_zerodha_margin, GOLDTEN, display_unit_qty, strContains, hasSub, subAt]

/-- Witness for C5: the general formula applied at the GOLDTEN contract and
the positive price 71000. -/
theorem margin_formula_and_scenario_witness :
    (0 : ℚ) < 71000 ∧
    calculate_zerodha_margin GOLDTEN 71000 =
      (71000 * (if GOLDTEN.type = "GOLD" then GOLDTEN.lot_qty / display_unit_qty GOLDTEN
                else GOLDTEN.lot_qty),
       71000 * (if GOLDTEN.type = "GOLD" then GOLDTEN.lot_qty / display_unit_qty GOLDTEN
                else GOLDTEN.lot_qty) * GOLDTEN.margin_pct) :=
  ⟨by norm_num, margin_formula_and_scenario.1 GOLDTEN 71000 (by norm_num)⟩

/-- C10: a contract whose display-unit label contains none of the four
recognised substrings silently gets display_unit_qty 1 (the default of the
if-chain), so a GOLD-type such contract is charged as if the displayed
price were per single unit: units_in_lot = lot_qty. -/
theorem default_display_unit_margin (c : Contract) (price : ℚ)
    (h1 : strContains c.display_unit ("10 Grams") = false)
    (h2 : strContains c.display_unit ("8 Grams") = false)
    (h3 : strContains c.display_unit ("1 Gram") = false)
    (h4 : strContains c.display_unit ("1 Kg") = false) :
    display_unit_qty c = 1 ∧
    (c.type = "GOLD" →
      calculate_zerodha_margin c price =
        (price * c.lot_qty, price * c.lot_qty * c.margin_pct)) := by
  have hq : display_unit_qty c = 1 := by
    simp [display_unit_qty, h1, h2, h3, h4]
  exact ⟨hq, fun ht => by simp [calculate_zerodha_margin, hq, ht]⟩

/-- Witness for C10 at a concrete GOLD contract labelled "1 Tola", which
matches none of the four recognised display-unit substrings. -/
theorem default_display_unit_margin_witness :
    display_unit_qty
      { ticker := "X", unit_mult := 1, display_unit := "1 Tola",
        lot_qty := 5, margin_pct := 0.1, type := "GOLD" } = 1 ∧
    calculate_zerodha_margin
      { ticker := "X", unit_mult := 1, display_unit := "1 Tola",
        lot_qty := 5, margin_pct := 0.1, type := "GOLD" } 40 =
      (40 * 5, 40 * 5 * 0.1) := by
  have h := default_display_unit_margin
    { ticker := "X", unit_mult := 1, display_unit := "1 Tola",
      lot_qty := 5, margin_pct := 0.1, type := "GOLD" } 40
    (by decide) (by decide) (by decide) (by decide)
  exact ⟨h.1, h.2 rfl⟩

/-- C6, counterexample: on the one-element price series [100] the EMA
columns are already defined (with a numeric value) at row 0, even though
index 0 precedes the 20- respectively 50-period lookback window of those
columns — pandas `ewm(span=...).mean()` has no warm-up period, so the
claim that every indicator column, including EMA_20 and EMA_50, holds an
undefined marker before its lookback window is false at this input. -/
theorem ema_defined_before_window_cex :
    ema20Col [(100 : ℚ)] 0 = some 100 ∧ ema20Col [(100 : ℚ)] 0 ≠ none ∧
    ema50Col [(100 : ℚ)] 0 = some 100 ∧ ema50Col [(100 : ℚ)] 0 ≠ none := by
  have h20 : ema20Col [(100 : ℚ)] 0 = some 100 := by
    norm_num [ema20Col, ewmMean, List.range_succ]
  have h50 : ema50Col [(100 : ℚ)] 0 = some 100 := by
    norm_num [ema50Col, ewmMean, List.range_succ]
  exact ⟨h20, by simp [h20], h50, by simp [h50]⟩

/-- C6, amended: the rolling indicator columns hold an explicit undefined
marker before their minimum lookback windows — RSI on the first 13 rows
(its 14-window of price deltas is incomplete there), and SMA_20, Std,
Upper and Lower on the first 19 rows — while the EMA columns (EMA_20,
EMA_50) are instead defined at every in-range row from the first onward. -/
theorem warmup_markers_amended (p : List ℚ) (i : ℕ) :
    (i < 13 → rsiCol p i = none) ∧
    (i < 19 → sma20Col p i = none ∧ stdCol p i = none ∧
              upperCol p i = none ∧ lowerCol p i = none) ∧
    (i < p.length → (ema20Col p i).isSome = true ∧ (ema50Col p i).isSome = true) := by
  refine ⟨fun hi => ?_, fun hi => ?_, fun hi => ?_⟩
  · have h14 : ¬ (14 ≤ i + 1) := by omega
    simp [rsiCol, rollMean, rollWindow, h14]
  · have h20 : ¬ (20 ≤ i + 1) := by omega
    simp [sma20Col, var20Col, stdCol, upperCol, lowerCol, rollMean, rollWindow, h20]
  · simp [ema20Col, ema50Col, ewmMean, hi]

/-- Witness for C6 amended at the series [100] and row 0. -/
theorem warmup_markers_amended_witness :
    rsiCol [(100 : ℚ)] 0 = none ∧ sma20Col [(100 : ℚ)] 0 = none ∧
    upperCol [(100 : ℚ)] 0 = none ∧ (ema20Col [(100 : ℚ)] 0).isSome = true :=
  ⟨(warmup_markers_amended [(100 : ℚ)] 0).1 (by decide),
   ((warmup_markers_amended [(100 : ℚ)] 0).2.1 (by decide)).1,
   ((warmup_markers_amended [(100 : ℚ)] 0).2.1 (by decide)).2.2.1,
   ((warmup_markers_amended [(100 : ℚ)] 0).2.2 (by decide)).1⟩

/-- A forward-filled cell whose input is present keeps its value. -/
theorem fcell_of_isSome (carry x : Option ℚ) (h : x.isSome = true) :
    fcell carry x = x := by
  cases x with
  | none => simp at h
  | some v => rfl

/-- Forward fill is positional and leaves a fully-populated row unchanged. -/
theorem ffillGo_getElem_of_defined (rows : List Row) :
    ∀ (i : ℕ) (r : Row) (g u c : Option ℚ), rows[i]? = some r →
      r.global_price.isSome = true → r.usdinr.isSome = true → r.close.isSome = true →
      (ffillGo g u c rows)[i]? = some r := by
  induction rows with
  | nil => intro i r g u c h; simp at h
  | cons hd tl ih =>
    intro i r g u c h hg hu hc
    cases i with
    | zero =>
      simp only [List.getElem?_cons_zero, Option.some_inj] at h
      subst h
      simp only [ffillGo, List.getElem?_cons_zero, Option.some_inj]
      rw [fcell_of_isSome _ _ hg, fcell_of_isSome _ _ hu, fcell_of_isSome _ _ hc]
    | succ n =>
      simp only [List.getElem?_cons_succ] at h
      simpa only [ffillGo, List.getElem?_cons_succ] using ih n r _ _ _ h hg hu hc

/-- C4: for series pairs with at least one overlapping timestamp, every row
of the table returned by `fetch_data` has a present asset price and a
present currency rate — missing cells are forward-filled and rows still
incomplete after the fill are removed by the dropna step. -/
theorem aligned_rows_fully_defined (multiplier : ℚ) (d : RawClose) (df : List Row)
    (_hov : ∃ (i : ℕ) (a rv : ℚ), (d.asset.zip d.inr)[i]? = some (some a, some rv))
    (h : fetch_data multiplier (Except.ok d) = Except.ok df) :
    ∀ r ∈ df, r.global_price.isSome = true ∧ r.usdinr.isSome = true := by
  intro r hr
  simp only [fetch_data, Except.ok.injEq] at h
  subst h
  have := (List.mem_filter.1 hr).2
  simp only [Bool.and_eq_true] at this
  exact ⟨this.1.1, this.1.2⟩

/-- Witness for C4: a two-row download whose currency rate is missing on
the second timestamp; both output rows are fully populated. -/
theorem aligned_rows_fully_defined_witness :
    (Row.mk (some 10) (some 2)
        (some (10 * (2 / troy_ounce_grams * 1 * TAX_FACTOR)))).global_price.isSome = true ∧
    (Row.mk (some 10) (some 2)
        (some (10 * (2 / troy_ounce_grams * 1 * TAX_FACTOR)))).usdinr.isSome = true := by
  have h := aligned_rows_fully_defined 1
    { asset := [some 10, some 20], inr := [some 2, none] }
    [ Row.mk (some 10) (some 2) (some (10 * (2 / troy_ounce_grams * 1 * TAX_FACTOR))),
      Row.mk (some 20) (some 2) (some (10 * (2 / troy_ounce_grams * 1 * TAX_FACTOR))) ]
    ⟨0, 10, 2, rfl⟩
    (by norm_num [fetch_data, mkRows, closeCell, ffillGo, fcell, dropna,
                  troy_ounce_grams, TAX_FACTOR])
  exact h _ (by simp)

/-- C1, counterexample: download with asset prices 10 then 20 and a
currency rate present only on the first timestamp.  The second output row
has its rate forward-filled to 2, but its derived price is the
forward-filled first-row price 10·(2/31.1035·1·1.12), not the claimed
20·(2/31.1035·1·1.12): `df['Close']` is computed at src/app.py:101 before
`df.ffill()` runs at src/app.py:104, so the Close hole is filled by
copying, not recomputed from the filled rate. -/
theorem derived_price_ffill_cex :
    fetch_data 1 (Except.ok { asset := [some 10, some 20], inr := [some 2, none] })
      = Except.ok
        [ Row.mk (some 10) (some 2) (some (10 * (2 / troy_ounce_grams * 1 * TAX_FACTOR))),
          Row.mk (some 20) (some 2) (some (10 * (2 / troy_ounce_grams * 1 * TAX_FACTOR))) ] ∧
    some ((10 : ℚ) * (2 / troy_ounce_grams * 1 * TAX_FACTOR))
      ≠ some ((20 : ℚ) * (2 / troy_ounce_grams * 1 * TAX_FACTOR)) := by
  constructor
  · norm_num [fetch_data, mkRows, closeCell, ffillGo, fcell, dropna,
              troy_ounce_grams, TAX_FACTOR]
  · norm_num [troy_ounce_grams, TAX_FACTOR]

/-- C1, amended: the derived price column is defined on every row of the
aligned table, and on every row both of whose inputs were present in the
raw download it equals asset_price · currency_rate / 31.1035 · multiplier ·
tax_factor (such rows survive the fill and drop unchanged); rows whose
currency_rate was forward-filled instead carry a forward-filled derived
price copied from the most recent fully-priced row. -/
theorem derived_price_formula_amended (multiplier : ℚ) (d : RawClose) (df : List Row)
    (h : fetch_data multiplier (Except.ok d) = Except.ok df) :
    (∀ r ∈ df, r.close.isSome = true) ∧
    (∀ (i : ℕ) (a rv : ℚ), (d.asset.zip d.inr)[i]? = some (some a, some rv) →
      Row.mk (some a) (some rv)
        (some (a * (rv / troy_ounce_grams * multiplier * TAX_FACTOR))) ∈ df) := by
  simp only [fetch_data, Except.ok.injEq] at h
  subst h
  constructor
  · intro r hr
    have := (List.mem_filter.1 hr).2
    simp only [Bool.and_eq_true] at this
    exact this.2
  · intro i a rv hi
    have hmk : (mkRows multiplier d)[i]? = some
        (Row.mk (some a) (some rv)
          (some (a * (rv / troy_ounce_grams * multiplier * TAX_FACTOR)))) := by
      simp only [mkRows, List.getElem?_map, hi, Option.map_some]
      rfl
    have hff := ffillGo_getElem_of_defined (mkRows multiplier d) i _ none none none
      hmk rfl rfl rfl
    exact List.mem_filter.2 ⟨List.getElem?_mem hff, by simp⟩

/-- Witness for C1 amended: at the same two-row download, the first raw row
has both inputs present and its exactly-priced row is a member of the
output table. -/
theorem derived_price_formula_amended_witness :
    Row.mk (some 10) (some 2) (some (10 * (2 / troy_ounce_grams * 1 * TAX_FACTOR))) ∈
      [ Row.mk (some 10) (some 2) (some (10 * (2 / troy_ounce_grams * 1 * TAX_FACTOR))),
        Row.mk (some 20) (some 2) (some (10 * (2 / troy_ounce_grams * 1 * TAX_FACTOR))) ] := by
  have h := derived_price_formula_amended 1
    { asset := [some 10, some 20], inr := [some 2, none] }
    [ Row.mk (some 10) (some 2) (some (10 * (2 / troy_ounce_grams * 1 * TAX_FACTOR))),
      Row.mk (some 20) (some 2) (some (10 * (2 / troy_ounce_grams * 1 * TAX_FACTOR))) ]
    (by norm_num [fetch_data, mkRows, closeCell, ffillGo, fcell, dropna,
                  troy_ounce_grams, TAX_FACTOR])
  exact h.2 0 10 2 rfl

/-- Every clamped gain is nonnegative. -/
theorem gains_nonneg (p : List ℚ) : ∀ x ∈ gains p, 0 ≤ x := by
  intro x hx
  simp only [gains, List.mem_map] at hx
  obtain ⟨i, -, rfl⟩ := hx
  split_ifs with h1 h2
  · exact le_refl 0
  · linarith
  · exact le_refl 0

/-- Every clamped loss is nonnegative. -/
theorem losses_nonneg (p : List ℚ) : ∀ x ∈ losses p, 0 ≤ x := by
  intro x hx
  simp only [losses, List.mem_map] at hx
  obtain ⟨i, -, rfl⟩ := hx
  split_ifs with h1 h2
  · exact le_refl 0
  · linarith
  · norm_num

/-- A rolling mean of a nonnegative series is nonnegative. -/
theorem rollMean_nonneg (w : ℕ) (xs : List ℚ) (i : ℕ) (m : ℚ)
    (hx : ∀ x ∈ xs, 0 ≤ x) (h : rollMean w xs i = some m) : 0 ≤ m := by
  simp only [rollMean, rollWindow] at h
  split at h
  · have h2 : ((xs.take (i + 1)).drop (i + 1 - w)).sum / (w : ℚ) = m := by
      simpa using h
    rw [← h2]
    refine div_nonneg (List.sum_nonneg ?_) (Nat.cast_nonneg w)
    intro x hmem
    exact hx x (List.mem_of_mem_take (List.mem_of_mem_drop hmem))
  · simp at h

/-- The RSI cell formula stays within [0, 100] for nonnegative mean gain
and mean loss. -/
theorem rsiCell_bounds (g l v : ℚ) (hg : 0 ≤ g) (hl : 0 ≤ l)
    (h : rsiCell g l = some v) : 0 ≤ v ∧ v ≤ 100 := by
  unfold rsiCell at h
  by_cases h0 : l = 0
  · by_cases hg0 : g = 0
    · simp [h0, hg0] at h
    · simp only [h0, hg0, if_true, if_false, Option.some_inj] at h
      rw [← h]
      norm_num
  · simp only [h0, if_false, Option.some_inj] at h
    have hlpos : 0 < l := lt_of_le_of_ne hl (Ne.symm h0)
    have ht : 0 ≤ g / l := div_nonneg hg hl
    have h1 : (0 : ℚ) < 1 + g / l := by linarith
    have h2 : 100 / (1 + g / l) ≤ 100 := by
      rw [div_le_iff₀ h1]
      nlinarith
    have h3 : 0 < 100 / (1 + g / l) := by positivity
    constructor <;> linarith [h.symm]

/-- C8: every defined value of the RSI column — 100·(1 − 1/(1+gain/loss))
over 14-period rolling means of the clamped price deltas — lies in the
closed interval [0, 100]. -/
theorem rsi_bounded (p : List ℚ) (i : ℕ) (v : ℚ) (h : rsiCol p i = some v) :
    0 ≤ v ∧ v ≤ 100 := by
  unfold rsiCol at h
  cases hg : rollMean 14 (gains p) i with
  | none =>
    cases hl : rollMean 14 (losses p) i <;> rw [hg, hl] at h <;> simp at h
  | some g =>
    cases hl : rollMean 14 (losses p) i with
    | none => rw [hg, hl] at h; simp at h
    | some l =>
      rw [hg, hl] at h
      exact rsiCell_bounds g l v
        (rollMean_nonneg 14 (gains p) i g (gains_nonneg p) hg)
        (rollMean_nonneg 14 (losses p) i l (losses_nonneg p) hl) h

/-- Witness for C8 on a 15-point alternating series: at row 13 the RSI is
defined and equals 700/13, which the theorem places in [0, 100]. -/
theorem rsi_bounded_witness :
    rsiCol [1, 2, 1, 2, 1, 2, 1, 2, 1, 2, 1, 2, 1, 2, 1] 13 = some (700 / 13) ∧
    (0 : ℚ) ≤ 700 / 13 ∧ (700 : ℚ) / 13 ≤ 100 := by
  have he : rsiCol [1, 2, 1, 2, 1, 2, 1, 2, 1, 2, 1, 2, 1, 2, 1] 13 = some (700 / 13) := by
    norm_num [rsiCol, rollMean, rollWindow, gains, losses, rsiCell, List.range_succ]
  exact ⟨he, rsi_bounded [1, 2, 1, 2, 1, 2, 1, 2, 1, 2, 1, 2, 1, 2, 1] 13 (700 / 13) he⟩

/-- The running-maximum accumulator never drops below its seed. -/
theorem runMaxGo_le (acc : ℚ) (l : List ℚ) : acc ≤ runMaxGo acc l := by
  induction l generalizing acc with
  | nil => exact le_refl acc
  | cons y ys ih => exact le_trans (le_max_left acc y) (ih (max acc y))

/-- Every list element is bounded by the running-maximum accumulator. -/
theorem mem_le_runMaxGo (acc x : ℚ) (l : List ℚ) (hx : x ∈ l) :
    x ≤ runMaxGo acc l := by
  induction l generalizing acc with
  | nil => simp at hx
  | cons y ys ih =>
    rcases List.mem_cons.1 hx with rfl | hmem
    · exact le_trans (le_max_right acc x) (runMaxGo_le (max acc x) ys)
    · exact ih (max acc y) hmem

/-- The running maximum is the seed or one of the list elements. -/
theorem runMaxGo_mem_or (acc : ℚ) (l : List ℚ) :
    runMaxGo acc l = acc ∨ runMaxGo acc l ∈ l := by
  induction l generalizing acc with
  | nil => exact Or.inl rfl
  | cons y ys ih =>
    rcases ih (max acc y) with h | h
    · rcases max_choice acc y with hm | hm
      · exact Or.inl (by rw [runMaxGo, h, hm])
      · exact Or.inr (by rw [runMaxGo, h, hm]; exact List.mem_cons_self y ys)
    · exact Or.inr (List.mem_cons_of_mem y h)

/-- The cumulative maximum of a non-empty list is attained by an element
and bounds every element. -/
theorem runMax_spec (l : List ℚ) (pk : ℚ) (h : runMax l = some pk) :
    pk ∈ l ∧ ∀ x ∈ l, x ≤ pk := by
  cases l with
  | nil => simp [runMax] at h
  | cons x xs =>
    simp only [runMax, Option.some_inj] at h
    subst h
    refine ⟨?_, ?_⟩
    · rcases runMaxGo_mem_or x xs with h | h
      · rw [h]; exact List.mem_cons_self x xs
      · exact List.mem_cons_of_mem x h
    · intro z hz
      rcases List.mem_cons.1 hz with rfl | hmem
      · exact runMaxGo_le z xs
      · exact mem_le_runMaxGo x z xs hmem

/-- C9: on any strictly positive price series, every defined drawdown value
(price − running peak)/peak · 100 is nonpositive, and it is zero exactly at
the rows where the price attains its running peak (the cummax of the prices
up to that row). -/
theorem drawdown_nonpos_iff_peak (p : List ℚ) (hpos : ∀ x ∈ p, 0 < x) (i : ℕ) (v : ℚ)
    (h : drawdownCol p i = some v) :
    v ≤ 0 ∧ (v = 0 ↔ peakCol p i = p[i]?) := by
  unfold drawdownCol at h
  cases hx : p[i]? with
  | none =>
    cases hpk : peakCol p i <;> rw [hx, hpk] at h <;> simp at h
  | some x =>
    cases hpk : peakCol p i with
    | none => rw [hx, hpk] at h; simp at h
    | some pk =>
      rw [hx, hpk] at h
      simp only [Option.some_inj] at h
      obtain ⟨hmem, hub⟩ := runMax_spec (p.take (i + 1)) pk hpk
      have hpk_pos : 0 < pk := hpos pk (List.mem_of_mem_take hmem)
      have hilt : i < p.length := (List.getElem?_eq_some_iff.1 hx).1
      have hx_mem : x ∈ p.take (i + 1) := by
        have ht : (p.take (i + 1))[i]? = some x := by
          rw [List.getElem?_take_of_lt (Nat.lt_succ_self i)]
          exact hx
        exact List.getElem?_mem ht
      have hle : x ≤ pk := hub x hx_mem
      have hq : (x - pk) / pk ≤ 0 :=
        div_nonpos_of_nonpos_of_nonneg (by linarith) hpk_pos.le
      constructor
      · rw [← h]
        nlinarith
      · constructor
        · intro h0
          rw [← h] at h0
          rcases div_eq_zero_iff.1 (by linarith [h0] : (x - pk) / pk = 0) with hz | hz
          · have : pk = x := by linarith
            rw [this]
          · exact absurd hz (ne_of_gt hpk_pos)
        · intro hpe
          have hpkx : pk = x := Option.some_inj.1 hpe
          rw [← h, hpkx]
          simp

/-- Witness for C9 at the positive series [2, 1, 2] and row 1: the drawdown
is −50, which is nonpositive and nonzero, and the price 1 is indeed not at
its running peak 2. -/
theorem drawdown_nonpos_iff_peak_witness :
    drawdownCol [2, 1, 2] 1 = some (-50) ∧
    (-50 : ℚ) ≤ 0 ∧ ((-50 : ℚ) = 0 ↔ peakCol [2, 1, 2] 1 = [(2 : ℚ), 1, 2][1]?) := by
  have he : drawdownCol [2, 1, 2] 1 = some (-50) := by
    norm_num [drawdownCol, peakCol, runMax, runMaxGo]
  exact ⟨he, drawdown_nonpos_iff_peak [2, 1, 2] (by norm_num) 1 (-50) he⟩

/-- Stated from the claim: the trailing 20-period window of the price
series ending at row `i`. -/
def bandWindow (p : List ℚ) (i : ℕ) : List ℚ :=
  (p.take (i + 1)).drop (i + 1 - 20)

/-- Stated from the claim: the 20-period simple moving average of the
trailing window. -/
def bandMean (p : List ℚ) (i : ℕ) : ℚ :=
  (bandWindow p i).sum / 20

/-- Stated from the claim (amended): the SAMPLE variance of the trailing
20-window, divisor n − 1 = 19 — this is what pandas `rolling(20).std()`
squares to with its default ddof=1. -/
def bandSampleVar (p : List ℚ) (i : ℕ) : ℚ :=
  ((bandWindow p i).map (fun x => (x - bandMean p i) ^ 2)).sum / 19

/-- Stated from the claim: the POPULATION variance of the trailing
20-window, divisor n = 20. -/
def bandPopVar (p : List ℚ) (i : ℕ) : ℚ :=
  ((bandWindow p i).map (fun x => (x - bandMean p i) ^ 2)).sum / 20

/-- C7, counterexample: on the 20-point series of nineteen 0s followed by
20, the code's Upper band at row 19 is mean + 2·√20 (sample variance
380/19 = 20, pandas ddof=1), which differs from the claimed
mean + 2·√(population variance) = mean + 2·√19 (380/20 = 19), since
√19 < √20. -/
theorem bollinger_population_std_cex :
    upperCol (List.replicate 19 (0 : ℚ) ++ [20]) 19
      = some ((bandMean (List.replicate 19 (0 : ℚ) ++ [20]) 19 : ℝ) + Real.sqrt 20 * 2) ∧
    ((bandMean (List.replicate 19 (0 : ℚ) ++ [20]) 19 : ℝ) + Real.sqrt 20 * 2)
      ≠ ((bandMean (List.replicate 19 (0 : ℚ) ++ [20]) 19 : ℝ) +
          Real.sqrt ((bandPopVar (List.replicate 19 (0 : ℚ) ++ [20]) 19 : ℚ) : ℝ) * 2) := by
  have hm : sma20Col (List.replicate 19 (0 : ℚ) ++ [20]) 19 = some 1 := by
    norm_num [sma20Col, rollMean, rollWindow, List.replicate]
  have hv : var20Col (List.replicate 19 (0 : ℚ) ++ [20]) 19 = some 20 := by
    norm_num [var20Col, rollWindow, List.replicate]
  have hbm : bandMean (List.replicate 19 (0 : ℚ) ++ [20]) 19 = 1 := by
    norm_num [bandMean, bandWindow, List.replicate]
  have hpv : bandPopVar (List.replicate 19 (0 : ℚ) ++ [20]) 19 = 19 := by
    norm_num [bandPopVar, bandMean, bandWindow, List.replicate]
  constructor
  · rw [hbm]
    simp only [upperCol, stdCol, hm, hv, Option.map_some']
    norm_num
  · rw [hbm, hpv]
    have hlt : Real.sqrt 19 < Real.sqrt 20 :=
      Real.sqrt_lt_sqrt (by norm_num) (by norm_num)
    intro heq
    rw [show (((19 : ℚ) : ℝ)) = (19 : ℝ) by norm_num] at heq
    linarith

/-- C7, amended: for every row with at least 20 periods of history, the
Upper and Lower band columns equal the 20-period simple moving average
plus/minus two times the SAMPLE standard deviation (divisor n − 1 = 19,
the pandas rolling-std default), not the population standard deviation. -/
theorem bollinger_sample_std_amended (p : List ℚ) (i : ℕ)
    (h1 : 19 ≤ i) (h2 : i < p.length) :
    upperCol p i
      = some ((bandMean p i : ℝ) + Real.sqrt ((bandSampleVar p i : ℚ) : ℝ) * 2) ∧
    lowerCol p i
      = some ((bandMean p i : ℝ) - Real.sqrt ((bandSampleVar p i : ℚ) : ℝ) * 2) := by
  have hcond : 20 ≤ i + 1 ∧ i < p.length := ⟨by omega, h2⟩
  have hw : rollWindow 20 p i = some (bandWindow p i) := by
    simp [rollWindow, hcond, bandWindow]
  have hm : sma20Col p i = some (bandMean p i) := by
    simp [sma20Col, rollMean, hw, bandMean]
  have hv : var20Col p i = some (bandSampleVar p i) := by
    simp [var20Col, hw, bandSampleVar, bandMean]
  constructor <;> simp [upperCol, lowerCol, stdCol, hm, hv]

/-- Witness for C7 amended at the concrete 20-point series of nineteen 0s
followed by 20, at row 19. -/
theorem bollinger_sample_std_amended_witness :
    upperCol (List.replicate 19 (0 : ℚ) ++ [20]) 19
      = some ((bandMean (List.replicate 19 (0 : ℚ) ++ [20]) 19 : ℝ) +
          Real.sqrt ((bandSampleVar (List.replicate 19 (0 : ℚ) ++ [20]) 19 : ℚ) : ℝ) * 2) ∧
    lowerCol (List.replicate 19 (0 : ℚ) ++ [20]) 19
      = some ((bandMean (List.replicate 19 (0 : ℚ) ++ [20]) 19 : ℝ) -
          Real.sqrt ((bandSampleVar (List.replicate 19 (0 : ℚ) ++ [20]) 19 : ℚ) : ℝ) * 2) :=
  bollinger_sample_std_amended (List.replicate 19 (0 : ℚ) ++ [20]) 19
    (by norm_num) (by simp)
